import Mathlib

/-!
Verification of `sevenn/util.py` (SEVENN): a shallow embedding of the
module's data model and operations, with theorems settling the spec claims.

Conventions of the embedding:
* Tensors are modelled as Lean lists of rationals (`List ℚ`); a 2-D tensor
  of shape `[n, 3]` is a `List Vec3`, one of shape `[k, 6]` is a list of
  6-element rows.
* Python dicts are association lists with first-match lookup and
  insert-or-overwrite-in-place update (preserving Python dict insertion
  order).
* Fallible Python code (raising `ValueError`, `KeyError`, assertion
  failures) is embedded in `Except String`.
-/

set_option autoImplicit false

namespace Sevenn

/-! ### Key constants (`sevenn._keys`)

Modelled from the spec: the module `sevenn._keys` is not part of the
sources; it only defines distinct string constants used as dictionary
keys. Their exact spellings are irrelevant to every claim; only
distinctness matters. -/

def KEY_NUM_ATOMS : String := "num_atoms"
def KEY_PRED_TOTAL_ENERGY : String := "inferred_total_energy"
def KEY_ENERGY : String := "total_energy"
def KEY_PRED_FORCE : String := "inferred_force"
def KEY_FORCE : String := "force_of_atoms"
def KEY_PRED_STRESS : String := "inferred_stress"
def KEY_STRESS : String := "stress"
def KEY_USER_LABEL : String := "user_label"
def KEY_ATOMIC_ENERGY : String := "atomic_energy"
def KEY_OPTIMIZE_BY_REDUCE : String := "optimize_by_reduce"
def KEY_CUTOFF_FUNCTION : String := "cutoff_function"
def KEY_CUTOFF_FUNCTION_NAME : String := "cutoff_function_name"
def KEY_SELF_CONNECTION_TYPE : String := "self_connection_type"

/-! ### Python-style configuration values

A configuration maps string keys to heterogeneous values.  The nested
dictionary case (`cutoff_function` holds a sub-dict of named parameters)
is modelled with string-valued entries, which is all the code ever reads
from it (`config[CUTOFF_FUNCTION][CUTOFF_FUNCTION_NAME] == 'XPLOR'`).
A tensor value carries a flag recording whether it lives on the cpu. -/

inductive Value where
  | vStr (s : String)
  | vBool (b : Bool)
  | vInt (n : Int)
  | vRat (q : ℚ)
  | vDict (d : List (String × String))
  | vTensor (cpu : Bool) (data : List ℚ)
  deriving DecidableEq, Repr

abbrev CfgMap := List (String × Value)

/-- First-match association-list lookup (Python `d[k]` / `k in d`). -/
def alookup {κ α : Type} [DecidableEq κ] : List (κ × α) → κ → Option α
  | [], _ => none
  | (k, v) :: rest, key => if k = key then some v else alookup rest key

/-- Python `d[k] = v` on a dict: overwrite in place if the key is present
(keeping its original position), append otherwise. -/
def ainsert {κ α : Type} [DecidableEq κ] : List (κ × α) → κ → α → List (κ × α)
  | [], key, v => [(key, v)]
  | (k, w) :: rest, key, v =>
      if k = key then (k, v) :: rest else (k, w) :: ainsert rest key v

/-- Python truthiness of a configuration value (`if not config[...]`).
A tensor with more than one element raises in torch. -/
def pyTruthy : Value → Except String Bool
  | .vStr s => .ok (s ≠ "")
  | .vBool b => .ok b
  | .vInt n => .ok (n ≠ 0)
  | .vRat q => .ok (q ≠ 0)
  | .vDict d => .ok (d ≠ [])
  | .vTensor _ data =>
      match data with
      | [x] => .ok (x ≠ 0)
      | _ => .error "Boolean value of Tensor with more than one element is ambiguous"

/-! ### `AverageNumber` (lines 12-32)

Running mean accumulator.  `update` takes a tensor, summing its values and
counting its elements; `get` returns `none` for torch's `np.nan` sentinel
when no element has ever been ingested. The distributed all-reduce
(`_ddp_reduce`) is a collective over external processes and is out of this
embedding's scope. -/

structure AverageNumber where
  sum : ℚ
  count : ℕ
  deriving DecidableEq, Repr

def AverageNumber.init : AverageNumber := ⟨0, 0⟩

def AverageNumber.update (st : AverageNumber) (values : List ℚ) : AverageNumber :=
  { sum := st.sum + values.sum, count := st.count + values.length }

/-- `get` returns `none` for the not-a-number sentinel. -/
def AverageNumber.get (st : AverageNumber) : Option ℚ :=
  if st.count = 0 then none else some (st.sum / st.count)

/-! ### Model output and `postprocess_output` (lines 131-168) -/

/-- A 3-component force row (tensor shape `[·, 3]`). -/
abbrev Vec3 := ℚ × ℚ × ℚ

/-- The batched model output dictionary, with the tensor-valued entries the
postprocessor reads. The "batch" axis has one entry per structure; per-atom
tensors are concatenated over all structures in batch order. -/
structure ModelOutput where
  numAtoms : List ℕ
  predTotalEnergy : List ℚ
  energy : List ℚ
  predForce : List Vec3
  force : List Vec3
  predStress : List (List ℚ)
  stress : List (List ℚ)
  userLabel : List String
  deriving Repr

/-- Loss-type argument of `postprocess_output`: the three `LossType` enum
members, plus `other` for any Python object outside the enum (the dynamic
argument the `else` branch rejects). -/
inductive LossT where
  | energy
  | force
  | stress
  | other (desc : String)
  deriving DecidableEq, Repr

/-- Key of the `results` dict built by `postprocess_output`. Python dict
keys are heterogeneous: `postprocess_output` stores loss-type keys, while
`postprocess_output_with_label` additionally looks up the *string*
`KEY.NUM_ATOMS` in the same dict. -/
inductive RKey where
  | lt (t : LossT)
  | skey (s : String)
  deriving DecidableEq, Repr

/-- `(pred, ref, vdim)` triple. -/
abbrev OutTriple := List ℚ × List ℚ × ℕ

abbrev Results := List (RKey × OutTriple)

/-- First-match lookup in the `results` dict. -/
def rlookup (rs : Results) (key : RKey) : Option OutTriple :=
  alookup rs key

/-- eV/A^3 to kbar (line 145). -/
def TO_KB : ℚ := 16021766208 / 10000000

/-- Flatten a `[n, 3]` tensor to 1-D (`torch.reshape(·, (-1,))`). -/
def flat3 : List Vec3 → List ℚ
  | [] => []
  | (x, y, z) :: rest => x :: y :: z :: flat3 rest

/-- Body of the `for loss_type in loss_types` dispatch (lines 147-166):
the flattened, unit-converted `(pred, ref, vdim)` triple of one loss
type; an unrecognized loss type raises `ValueError`. -/
def lossTriple (output : ModelOutput) : LossT → Except String OutTriple
  | .energy =>
      -- dim: (num_batch)
      let num_atoms := output.numAtoms
      let pred := List.zipWith (fun (e : ℚ) (n : ℕ) => e / (n : ℚ))
        output.predTotalEnergy num_atoms
      let ref := List.zipWith (fun (e : ℚ) (n : ℕ) => e / (n : ℚ))
        output.energy num_atoms
      pure (pred, ref, 1)
  | .force =>
      -- dim: (total_number_of_atoms_over_batch, 3)
      pure (flat3 output.predForce, flat3 output.force, 3)
  | .stress =>
      -- dim: (num_batch, 6), converted from eV/A^3 to kbar
      let pred := (output.predStress.flatten).map (· * TO_KB)
      let ref := (output.stress.flatten).map (· * TO_KB)
      pure (pred, ref, 6)
  | .other desc =>
      Except.error ("Unknown loss type: " ++ desc)

/-- The `for loss_type in loss_types` loop of lines 147-167,
accumulating the `results` dict. -/
def postprocessGo (output : ModelOutput) :
    Results → List LossT → Except String Results
  | results, [] => .ok results
  | results, loss_type :: rest => do
      let triple ← lossTriple output loss_type
      postprocessGo output (ainsert results (RKey.lt loss_type) triple) rest

/-- `postprocess_output` (lines 131-168). -/
def postprocess_output (output : ModelOutput) (loss_types : List LossT) :
    Except String Results :=
  postprocessGo output [] loss_types

/-! ### `postprocess_output_with_label` (lines 109-128) -/

/-- Python slice `xs[i_from:i_to]`. -/
def pyslice (xs : List ℚ) (iFrom iTo : ℕ) : List ℚ :=
  (xs.drop iFrom).take (iTo - iFrom)

/-- Per-label results: `label → \x7bloss type → (pred slice, ref slice)\x7d`,
with Python-dict overwrite semantics on repeated assignment. -/
abbrev Labeled := List (String × List (LossT × (List ℚ × List ℚ)))

def labeledAssign (labeled : Labeled) (label : String) (t : LossT)
    (v : List ℚ × List ℚ) : Labeled :=
  match alookup labeled label with
  | some inner =>
      ainsert labeled label
        ((inner.filter (fun p => p.1 ≠ t)) ++ [(t, v)])
  | none => ainsert labeled label [(t, v)]

/-- The `for idx, label in enumerate(batched_label)` loop
(lines 121-127) for one loss type, advancing the `i_from` cursor.  In the
FORCE branch the source computes
`i_to = i_from + vdim * results[KEY.NUM_ATOMS][idx].item()`: `results` is
the dict returned by `postprocess_output`, whose keys are loss types
only, so the subscript raises `KeyError` whenever FORCE is processed (and
were the string key somehow present, its value would be a
`(pred, ref, vdim)` tuple, on which `[idx].item()` raises as well). -/
def labelLoop (results : Results) (loss_type : LossT) (pred ref : List ℚ)
    (vdim : ℕ) :
    List String → ℕ → ℕ → Labeled → Except String Labeled
  | [], _, _, labeled => .ok labeled
  | label :: restLabels, idx, i_from, labeled => do
      let i_to ←
        if loss_type = LossT.force then
          match rlookup results (RKey.skey KEY_NUM_ATOMS) with
          | none => Except.error ("KeyError: " ++ KEY_NUM_ATOMS)
          | some _ => Except.error "TypeError: output triple is not a tensor"
        else
          pure (i_from + vdim)
      labelLoop results loss_type pred ref vdim restLabels (idx + 1) i_to
        (labeledAssign labeled label loss_type
          (pyslice pred i_from i_to, pyslice ref i_from i_to))

/-- The outer `for loss_type, (pred, ref, vdim) in results.items()` loop
(lines 116-127). -/
def withLabelLoop (results : Results) (batched_label : List String) :
    List (RKey × OutTriple) → Labeled → Except String Labeled
  | [], labeled => .ok labeled
  | (RKey.skey _, _) :: rest, labeled =>
      withLabelLoop results batched_label rest labeled
  | (RKey.lt loss_type, (pred, ref, vdim)) :: rest, labeled => do
      let labeled ←
        labelLoop results loss_type pred ref vdim batched_label 0 0 labeled
      withLabelLoop results batched_label rest labeled

/-- `postprocess_output_with_label` (lines 109-128). -/
def postprocess_output_with_label (output : ModelOutput)
    (loss_types : List LossT) : Except String Labeled := do
  let results ← postprocess_output output loss_types
  let batched_label := output.userLabel
  withLabelLoop results batched_label results []

/-! ### `to_atom_graph_list` (lines 35-67) -/

/-- `torch.split(xs, indices)`: consecutive chunks of the given sizes.
(torch raises unless the sizes sum to the tensor's length; theorems carry
that hypothesis.) -/
def splitSizes {α : Type} : List α → List ℕ → List (List α)
  | _, [] => []
  | xs, n :: ns => xs.take n :: splitSizes (xs.drop n) ns

/-- One per-structure record, as produced by the external
`to_data_list()` of the graph-batching collaborator and then augmented by
`to_atom_graph_list` with the inferred fields.  A per-structure stress is
a 6-element row; the `[1, 6]` convention keeps it inside a singleton
list. -/
structure AtomGraphRecord where
  atomicEnergy : List ℚ
  predTotalEnergy : ℚ
  predForce : List Vec3
  predStress : Option (List (List ℚ))
  deriving DecidableEq, Repr, Inhabited

/-- The batched graph with inferred tensors, as read by
`to_atom_graph_list`.  `dataList` stands for the output of the external
`to_data_list()` call (one record per structure, in batch order), whose
inferred fields are about to be overwritten. -/
structure AtomGraphBatch where
  numAtoms : List ℕ
  atomicEnergy : List ℚ
  predTotalEnergy : List ℚ
  predForce : List Vec3
  predStress : Option (List (List ℚ))
  dataList : List AtomGraphRecord
  deriving Repr

/-- `to_atom_graph_list` (lines 35-67): split the per-atom inferred
tensors by the per-structure atom counts, unbind the per-structure ones,
and attach them to the records from `to_data_list()`; a present inferred
stress is unsqueezed to a singleton leading dimension. -/
def to_atom_graph_list (b : AtomGraphBatch) : List AtomGraphRecord :=
  let is_stress := b.predStress.isSome
  let data_list := b.dataList
  let indices := b.numAtoms
  let atomic_energy_list := splitSizes b.atomicEnergy indices
  let inferred_total_energy_list := b.predTotalEnergy
  let inferred_force_list := splitSizes b.predForce indices
  let inferred_stress_list := b.predStress.getD []
  (List.range data_list.length).map (fun i =>
    let data := data_list.getD i default
    { data with
      atomicEnergy := atomic_energy_list.getD i []
      predTotalEnergy := inferred_total_energy_list.getD i 0
      predForce := inferred_force_list.getD i []
      predStress :=
        if is_stress then some [inferred_stress_list.getD i []]
        else data.predStress })

/-! ### `_map_old_model` (lines 183-217) -/

/-- The static legacy module-name table `_old_module_name_mapping`
(lines 188-204): four fixed entries plus four numbered variants for each
of the layer indices 0..9. -/
def oldModuleNameMapping : List (String × String) :=
  [("EdgeEmbedding", "edge_embedding"),
   ("reducing nn input to hidden", "reduce_input_to_hidden"),
   ("reducing nn hidden to energy", "reduce_hidden_to_energy"),
   ("rescale atomic energy", "rescale_atomic_energy")] ++
  (List.range 10).flatMap (fun i =>
    [(toString i ++ " self connection intro",
      toString i ++ "_self_connection_intro"),
     (toString i ++ " convolution", toString i ++ "_convolution"),
     (toString i ++ " self interaction 2",
      toString i ++ "_self_interaction_2"),
     (toString i ++ " equivariant gate",
      toString i ++ "_equivariant_gate")])

/-- Character-level splitter (Python `str.split(sep)` for a one-character
separator): `"a.b.".split('.') = ["a", "b", ""]`, `"".split('.') = [""]`. -/
def splitOnCharAux (c : Char) : List Char → List Char → List (List Char)
  | [], acc => [acc.reverse]
  | x :: rest, acc =>
      if x = c then acc.reverse :: splitOnCharAux c rest []
      else splitOnCharAux c rest (x :: acc)

def pySplit (s : String) (c : Char) : List String :=
  (splitOnCharAux c s.data []).map (fun l => ⟨l⟩)

/-- Python `pat in s` on character lists (substring containment). -/
def containsSub (pat : List Char) : List Char → Bool
  | [] => pat.isEmpty
  | x :: rest => pat.isPrefixOf (x :: rest) || containsSub pat rest

/-- Python `s.replace(pat, repl)` for a nonempty pattern `c :: cs`:
replace non-overlapping occurrences left to right. -/
def replaceSub (c : Char) (cs repl : List Char) : List Char → List Char
  | [] => []
  | x :: rest =>
      if (c :: cs).isPrefixOf (x :: rest) then
        repl ++ replaceSub c cs repl (rest.drop cs.length)
      else
        x :: replaceSub c cs repl rest
termination_by s => s.length
decreasing_by
  · simp only [List.length_drop, List.length_cons]
    omega
  · simp only [List.length_cons]
    omega

def pyReplace (s pat repl : String) : String :=
  match pat.data with
  | [] => s
  | c :: cs => ⟨replaceSub c cs repl.data s.data⟩

/-- Rename one state-dict key (body of the loop, lines 207-216): split on
dots, fix the historical `denumerator` misspelling in the remainder
(everything after the first dot), and translate the leading module name
through the legacy table; a key whose leading component is not in the
table is kept verbatim. -/
def mapOldKey (k : String) : String :=
  let parts := pySplit k '.'
  let key_name := parts.headD ""
  let follower := String.intercalate "." parts.tail
  let follower :=
    if containsSub "denumerator".data follower.data then
      pyReplace follower "denumerator" "denominator"
    else follower
  match alookup oldModuleNameMapping key_name with
  | some new_key_name => new_key_name ++ "." ++ follower
  | none => k

/-- A model parameter mapping (`state_dict`): names to tensors. -/
abbrev StateDict := List (String × List ℚ)

/-- `_map_old_model` (lines 183-217): rebuild the state dict with renamed
keys, with Python-dict insertion semantics. -/
def mapOldModel (old_model_state_dict : StateDict) : StateDict :=
  old_model_state_dict.foldl
    (fun new_sd kv => ainsert new_sd (mapOldKey kv.1) kv.2) []

/-! ### `model_from_checkpoint` (lines 220-282)

The defaults tables (`DEFAULT_E3_EQUIVARIANT_MODEL_CONFIG`,
`DEFAULT_DATA_CONFIG`, `DEFAULT_TRAINING_CONFIG` from `sevenn._const`) and
the model builder (`build_E3_equivariant_model`) are repository code and an
external collaborator outside these sources; they enter the embedding as
parameters (`defaults`, `build`).  `build cfg` stands for the key set of
the constructed model's own state dict, which is what
`load_state_dict(..., strict=False)` compares against. -/

/-- A persisted checkpoint: at least `model_state_dict` and `config`. -/
structure Checkpoint where
  model_state_dict : StateDict
  config : CfgMap

/-- The dynamic argument of `model_from_checkpoint`: a path string, an
already-loaded mapping, or any other Python object (rejected). -/
inductive CkptInput where
  | str (path : String)
  | dict (ckpt : Checkpoint)
  | other (desc : String)

/-- Lines 228-233: dispatch on the input's type; `torch.load` appears as
the external `fs` map from paths to stored checkpoints. -/
def checkpointFromInput (fs : String → Option Checkpoint) :
    CkptInput → Except String Checkpoint
  | .str path =>
      match fs path with
      | some ckpt => .ok ckpt
      | none => .error ("FileNotFoundError: " ++ path)
  | .dict ckpt => .ok ckpt
  | .other _ => .error "checkpoint must be either str or dict"

/-- Warning printed by line 249 for a default-filled key. -/
def defaultFilledWarning (k : String) : String :=
  "Warning: " ++ k ++ " not in config, using default value"

/-- Lines 247-250: fill every defaults key absent from the config,
returning the filled config and the warnings emitted (in defaults
order). -/
def fillDefaults (defaults config : CfgMap) : CfgMap × List String :=
  match defaults with
  | [] => (config, [])
  | (k, v) :: rest =>
      match alookup config k with
      | some _ => fillDefaults rest config
      | none =>
          let r := fillDefaults rest (ainsert config k v)
          (r.1, defaultFilledWarning k :: r.2)

/-- Lines 255-257: a tensor-valued config entry is moved to the cpu. -/
def valueToCpu : Value → Value
  | .vTensor _ data => .vTensor true data
  | v => v

def cfgToCpu (config : CfgMap) : CfgMap :=
  config.map (fun kv => (kv.1, valueToCpu kv.2))

/-- The condition of lines 259-262:
`config[CUTOFF_FUNCTION][CUTOFF_FUNCTION_NAME] == 'XPLOR' and
config[SELF_CONNECTION_TYPE] == 'MACE'`, with Python's `KeyError` on a
missing key, `TypeError` on subscripting a non-dict, and short-circuit
evaluation of `and`. -/
def xplorMaceCond (config : CfgMap) : Except String Bool := do
  let cf ←
    match alookup config KEY_CUTOFF_FUNCTION with
    | some v => pure v
    | none => Except.error ("KeyError: " ++ KEY_CUTOFF_FUNCTION)
  let name ←
    match cf with
    | .vDict d =>
        match alookup d KEY_CUTOFF_FUNCTION_NAME with
        | some s => pure s
        | none => Except.error ("KeyError: " ++ KEY_CUTOFF_FUNCTION_NAME)
    | _ => Except.error "TypeError: value is not subscriptable"
  if name = "XPLOR" then
    match alookup config KEY_SELF_CONNECTION_TYPE with
    | some (.vStr s) => pure (s = "MACE")
    | some _ => pure false
    | none => Except.error ("KeyError: " ++ KEY_SELF_CONNECTION_TYPE)
  else
    pure false

/-- Warning text of lines 263-269 (abridged). -/
def xplorWarning : String := "loaded potential was trained on WRONG cutoff"

/-- Configuration resolution steps of `model_from_checkpoint`
(lines 244-270): reject the obsolete optimize flag, fill defaults with
warnings, normalize tensors to cpu, and downgrade the XPLOR/MACE
combination to `self_connection_type='linear'` with a warning. -/
def resolveConfig (defaults config : CfgMap) :
    Except String (CfgMap × List String) := do
  let flag ←
    match alookup config KEY_OPTIMIZE_BY_REDUCE with
    | some v => pure v
    | none => Except.error ("KeyError: " ++ KEY_OPTIMIZE_BY_REDUCE)
  let b ← pyTruthy flag
  if ¬ b then
    Except.error "This potential file is no longer supported"
  else do
    let filled := fillDefaults defaults config
    let warns := filled.2
    let config := cfgToCpu filled.1
    let fix ← xplorMaceCond config
    if fix then
      pure (ainsert config KEY_SELF_CONNECTION_TYPE (Value.vStr "linear"),
        warns ++ [xplorWarning])
    else
      pure (config, warns)

/-- `model.load_state_dict(sd, strict=False)` of the model-builder
collaborator: returns `(missing_keys, unexpected_keys)` against the
model's expected parameter names. -/
def loadStateDict (expected : List String) (sd : StateDict) :
    List String × List String :=
  (expected.filter (fun k => (alookup sd k).isNone),
   (sd.map Prod.fst).filter (fun k => ¬ k ∈ expected))

/-- Parameter-loading steps of `model_from_checkpoint` (lines 273-280):
non-strict load, legacy remapping retry when keys are missing, a warning
for unused keys after the retry, and the final `assert` that no key is
missing.  Returns the warnings emitted. -/
def loadModelParams (expected : List String) (model_state_dict : StateDict) :
    Except String (List String) :=
  let missing := (loadStateDict expected model_state_dict).1
  if missing.length > 0 then
    let updated := mapOldModel model_state_dict
    let missing2 := (loadStateDict expected updated).1
    let not_used := (loadStateDict expected updated).2
    let warns :=
      if not_used.length > 0 then ["Some keys are not used"] else []
    if missing2.length > 0 then
      Except.error "AssertionError: Missing keys"
    else
      Except.ok warns
  else
    Except.ok []

/-- `model_from_checkpoint` (lines 220-282), with the external
collaborators as parameters.  Returns the model (represented by its
expected parameter names), the resolved configuration, and the warnings
emitted along the way. -/
def model_from_checkpoint (build : CfgMap → List String)
    (fs : String → Option Checkpoint) (defaults : CfgMap)
    (input : CkptInput) :
    Except String (List String × CfgMap × List String) := do
  let ckpt ← checkpointFromInput fs input
  let (config, warns) ← resolveConfig defaults ckpt.config
  let expected := build config
  let warns2 ← loadModelParams expected ckpt.model_state_dict
  pure (expected, config, warns ++ warns2)

/-! ### `infer_irreps_out` (lines 379-403)

An irreps signature is a list of `(multiplicity, (degree l, parity p))`
blocks with `p ∈ \x7b+1, -1\x7d`.  `FullTensorProduct(x, op).irreps_out` and
`.simplify()` belong to the external equivariant-algebra collaborator
(e3nn); they are embedded by their defining algebra: every pair of input
blocks contributes one output block for each degree `l` in
`|l1 - l2| .. l1 + l2`, with parity `p1 * p2` and multiplicity
`m1 * m2`, and `simplify` merges consecutive blocks with equal
`(l, p)`. -/

abbrev Irrep := ℕ × Int
abbrev Irreps := List (ℕ × Irrep)

/-- `FullTensorProduct(irreps_x, irreps_operand).irreps_out`. -/
def fullTPIrrepsOut (x op : Irreps) : Irreps :=
  x.flatMap (fun b1 => op.flatMap (fun b2 =>
    let m1 := b1.1; let l1 := b1.2.1; let p1 := b1.2.2
    let m2 := b2.1; let l2 := b2.2.1; let p2 := b2.2.2
    (List.range' (max l1 l2 - min l1 l2) (2 * min l1 l2 + 1)).map
      (fun l => (m1 * m2, (l, p1 * p2)))))

/-- `Irreps.simplify`: merge consecutive blocks with the same irrep. -/
def simplifyIrreps : Irreps → Irreps
  | [] => []
  | (m, ir) :: rest =>
      match simplifyIrreps rest with
      | [] => [(m, ir)]
      | (m2, ir2) :: tail =>
          if ir = ir2 then (m + m2, ir) :: tail
          else (m, ir) :: (m2, ir2) :: tail

/-- `infer_irreps_out` (lines 379-403).  `drop_l = none` is the Python
default `False`; `fix_multiplicity = 0` is the Python falsy default.  The
leading `assert` rejects an unknown parity mode.  (The source compares
`parity_mode is 'even'` by object identity; for the interned literal
strings flowing through this argument that coincides with string
equality, which is how it is embedded.) -/
def infer_irreps_out (irreps_x irreps_operand : Irreps)
    (drop_l : Option ℤ) (parity_mode : String) (fix_multiplicity : ℕ) :
    Except String Irreps := do
  if ¬ (parity_mode = "full" ∨ parity_mode = "even" ∨ parity_mode = "sph") then
    Except.error "AssertionError: parity_mode"
  else
    let irreps_out := simplifyIrreps (fullTPIrrepsOut irreps_x irreps_operand)
    let new_irreps_elem := irreps_out.filterMap (fun b =>
      let mul := b.1; let l := b.2.1; let p := b.2.2
      if (match drop_l with
          | some d => decide ((l : ℤ) > d)
          | none => false) then
        none
      else if parity_mode = "even" ∧ p = -1 then
        none
      else if parity_mode = "sph" ∧ p ≠ (-1) ^ l then
        none
      else if fix_multiplicity ≠ 0 then
        some (fix_multiplicity, (l, p))
      else
        some (mul, (l, p)))
    pure new_irreps_elem

/-! ### Concrete sample data for witnesses and counterexamples -/

/-- A concrete two-structure batched output: atom counts `[1, 2]`,
labels `["a", "b"]`, three atoms in total. -/
def sampleOutput : ModelOutput :=
  { numAtoms := [1, 2]
    predTotalEnergy := [2, 6]
    energy := [1, 4]
    predForce := [(1, 0, 0), (0, 1, 0), (0, 0, 1)]
    force := [(0, 0, 0), (0, 0, 0), (0, 0, 0)]
    predStress := [[1, 0, 0, 0, 0, 0], [0, 1, 0, 0, 0, 0]]
    stress := [[0, 0, 0, 0, 0, 0], [0, 0, 0, 0, 0, 0]]
    userLabel := ["a", "b"] }

/-! ### Association-list lemmas -/

theorem alookup_ainsert_self {κ α : Type} [DecidableEq κ]
    (l : List (κ × α)) (k : κ) (v : α) :
    alookup (ainsert l k v) k = some v := by
  induction l with
  | nil => simp [ainsert, alookup]
  | cons p rest ih =>
      obtain ⟨k0, v0⟩ := p
      by_cases h : k0 = k
      · subst h; simp [ainsert, alookup]
      · simp [ainsert, alookup, h, ih]

theorem alookup_ainsert_ne {κ α : Type} [DecidableEq κ]
    (l : List (κ × α)) (k k' : κ) (v : α) (h : k' ≠ k) :
    alookup (ainsert l k v) k' = alookup l k' := by
  have hk : ¬ k = k' := fun hh => h hh.symm
  induction l with
  | nil =>
      simp only [ainsert, alookup]
      rw [if_neg hk]
  | cons p rest ih =>
      obtain ⟨k0, v0⟩ := p
      by_cases h0 : k0 = k
      · subst h0
        simp only [ainsert, if_pos rfl, alookup]
        rw [if_neg hk, if_neg hk]
      · simp only [ainsert, if_neg h0, alookup]
        by_cases h1 : k0 = k'
        · rw [if_pos h1, if_pos h1]
        · rw [if_neg h1, if_neg h1, ih]

theorem alookup_eq_none {κ α : Type} [DecidableEq κ]
    (l : List (κ × α)) (k : κ) :
    alookup l k = none ↔ k ∉ l.map Prod.fst := by
  induction l with
  | nil => simp [alookup]
  | cons p rest ih =>
      obtain ⟨k0, v0⟩ := p
      by_cases h : k0 = k
      · subst h; simp [alookup]
      · simp [alookup, h, ih, Ne.symm h]

theorem alookup_append_left {κ α : Type} [DecidableEq κ]
    (l1 l2 : List (κ × α)) (k : κ) (h : alookup l1 k = none) :
    alookup (l1 ++ l2) k = alookup l2 k := by
  induction l1 with
  | nil => simp
  | cons p rest ih =>
      obtain ⟨k0, v0⟩ := p
      by_cases h0 : k0 = k
      · subst h0; simp [alookup] at h
      · simp [alookup, h0] at h ⊢
        exact ih h

theorem ainsert_of_alookup_none {κ α : Type} [DecidableEq κ]
    (l : List (κ × α)) (k : κ) (v : α) (h : alookup l k = none) :
    ainsert l k v = l ++ [(k, v)] := by
  induction l with
  | nil => simp [ainsert]
  | cons p rest ih =>
      obtain ⟨k0, v0⟩ := p
      by_cases h0 : k0 = k
      · subst h0; simp [alookup] at h
      · simp [alookup, h0] at h
        simp [ainsert, h0, ih h]

/-! ### C8: `AverageNumber` computes the running mean -/

theorem averageNumber_foldl_spec (batches : List (List ℚ)) (st : AverageNumber) :
    (batches.foldl AverageNumber.update st).sum = st.sum + (batches.flatten).sum ∧
    (batches.foldl AverageNumber.update st).count = st.count + (batches.flatten).length := by
  induction batches generalizing st with
  | nil => simp
  | cons b rest ih =>
      have h := ih (st.update b)
      constructor
      · rw [List.foldl_cons, h.1]
        simp only [AverageNumber.update, List.flatten_cons, List.sum_append]
        ring
      · rw [List.foldl_cons, h.2]
        simp only [AverageNumber.update, List.flatten_cons, List.length_append]
        omega

/-- C8: after ingesting batches whose concatenated elements are
`v1..vn`, `AverageNumber.get` returns the arithmetic mean `Σvᵢ / n`;
if no element has ever been ingested (even across updates with only
empty batches), it returns the not-a-number sentinel (`none`), never
dividing by zero. -/
theorem averageNumber_get_mean (batches : List (List ℚ)) :
    ((batches.flatten = []) →
      (batches.foldl AverageNumber.update AverageNumber.init).get = none) ∧
    ((batches.flatten ≠ []) →
      (batches.foldl AverageNumber.update AverageNumber.init).get =
        some ((batches.flatten).sum / (batches.flatten).length)) := by
  obtain ⟨hsum, hcount⟩ := averageNumber_foldl_spec batches AverageNumber.init
  have hs : (batches.foldl AverageNumber.update AverageNumber.init).sum =
      (batches.flatten).sum := by
    rw [hsum]; simp [AverageNumber.init]
  have hc : (batches.foldl AverageNumber.update AverageNumber.init).count =
      (batches.flatten).length := by
    rw [hcount]; simp [AverageNumber.init]
  constructor
  · intro h
    simp [AverageNumber.get, hc, h]
  · intro h
    have hne : (batches.flatten).length ≠ 0 :=
      fun hh => h (List.length_eq_zero.mp hh)
    simp only [AverageNumber.get, hc, hs]
    rw [if_neg hne]

/-- C8 witness: batches `[[1, 2], [], [3]]` have mean `2`. -/
theorem averageNumber_get_mean_witness :
    (([[(1 : ℚ), 2], [], [3]] : List (List ℚ)).foldl
        AverageNumber.update AverageNumber.init).get = some 2 := by
  have h := (averageNumber_get_mean [[(1 : ℚ), 2], [], [3]]).2 (by decide)
  rw [h]
  norm_num

/-! ### C7: ENERGY postprocessing divides by atom counts -/

/-- C7: for a batched output with per-structure atom counts and total
energies, `postprocess_output` with the ENERGY loss type returns
predictions (and references) equal to the raw total energies divided
elementwise by the atom counts, in per-structure batch order, with
per-item dimensionality 1. -/
theorem postprocess_output_energy (output : ModelOutput)
    (hp : output.predTotalEnergy.length = output.numAtoms.length)
    (hr : output.energy.length = output.numAtoms.length) :
    ∃ pred ref,
      postprocess_output output [LossT.energy] =
        .ok [(RKey.lt LossT.energy, (pred, ref, 1))] ∧
      pred.length = output.numAtoms.length ∧
      ref.length = output.numAtoms.length ∧
      (∀ i e n, output.predTotalEnergy.get? i = some e →
        output.numAtoms.get? i = some n →
        pred.get? i = some (e / (n : ℚ))) ∧
      (∀ i e n, output.energy.get? i = some e →
        output.numAtoms.get? i = some n →
        ref.get? i = some (e / (n : ℚ))) := by
  refine ⟨List.zipWith (fun (e : ℚ) (n : ℕ) => e / (n : ℚ))
      output.predTotalEnergy output.numAtoms,
    List.zipWith (fun (e : ℚ) (n : ℕ) => e / (n : ℚ))
      output.energy output.numAtoms,
    rfl, ?_, ?_, ?_, ?_⟩
  · rw [List.length_zipWith, hp, min_self]
  · rw [List.length_zipWith, hr, min_self]
  · intro i e n h1 h2
    rw [List.get?_zipWith_eq_some]
    exact ⟨e, n, h1, h2, rfl⟩
  · intro i e n h1 h2
    rw [List.get?_zipWith_eq_some]
    exact ⟨e, n, h1, h2, rfl⟩

/-- C7 witness: on `sampleOutput` (total energies `[2, 6]`, atom counts
`[1, 2]`) the second per-atom energy prediction is `6 / 2 = 3`. -/
theorem postprocess_output_energy_witness :
    ∃ pred ref,
      postprocess_output sampleOutput [LossT.energy] =
        .ok [(RKey.lt LossT.energy, (pred, ref, 1))] ∧
      pred.get? 1 = some 3 := by
  obtain ⟨pred, ref, h1, _, _, h4, _⟩ :=
    postprocess_output_energy sampleOutput (by decide) (by decide)
  have h := h4 1 6 2 (by decide) (by decide)
  rw [show ((6 : ℚ) / ((2 : ℕ) : ℚ)) = 3 by norm_num] at h
  exact ⟨pred, ref, h1, h⟩

/-! ### C3: the three invalid-argument errors -/

theorem postprocessGo_error_of_other (output : ModelOutput) (desc : String)
    (lts : List LossT) (h : LossT.other desc ∈ lts) (acc : Results) :
    ∃ e, postprocessGo output acc lts = .error e := by
  induction lts generalizing acc with
  | nil => cases h
  | cons t rest ih =>
      cases h with
      | head => exact ⟨_, rfl⟩
      | tail _ hmem =>
          cases t with
          | energy => exact ih hmem _
          | force => exact ih hmem _
          | stress => exact ih hmem _
          | other d => exact ⟨_, rfl⟩

/-- C3: each invalid-argument condition raises immediately:
`postprocess_output` on a loss type outside \x7bENERGY, FORCE, STRESS\x7d
(embedded as `LossT.other`), `infer_irreps_out` on a parity mode outside
\x7b'full', 'even', 'sph'\x7d, and `model_from_checkpoint` on an input that is
neither a string identifier nor an already-loaded mapping. -/
theorem invalid_argument_errors :
    (∀ (output : ModelOutput) (desc : String) (loss_types : List LossT),
      LossT.other desc ∈ loss_types →
      ∃ e, postprocess_output output loss_types = .error e) ∧
    (∀ (x op : Irreps) (dl : Option ℤ) (pm : String) (fm : ℕ),
      pm ≠ "full" → pm ≠ "even" → pm ≠ "sph" →
      infer_irreps_out x op dl pm fm = .error "AssertionError: parity_mode") ∧
    (∀ (build : CfgMap → List String) (fs : String → Option Checkpoint)
        (defaults : CfgMap) (desc : String),
      model_from_checkpoint build fs defaults (CkptInput.other desc) =
        .error "checkpoint must be either str or dict") := by
  refine ⟨?_, ?_, ?_⟩
  · intro output desc loss_types h
    exact postprocessGo_error_of_other output desc loss_types h []
  · intro x op dl pm fm h1 h2 h3
    rw [infer_irreps_out]
    rw [if_pos]
    push_neg
    exact ⟨h1, h2, h3⟩
  · intro build fs defaults desc
    rfl

/-- C3 witness: the three errors at concrete arguments. -/
theorem invalid_argument_errors_witness :
    (∃ e, postprocess_output sampleOutput
        [LossT.energy, LossT.other "HESSIAN"] = .error e) ∧
    infer_irreps_out [] [] none "odd" 0 =
      .error "AssertionError: parity_mode" ∧
    model_from_checkpoint (fun _ => []) (fun _ => none) []
        (CkptInput.other "int") =
      .error "checkpoint must be either str or dict" :=
  ⟨invalid_argument_errors.1 sampleOutput "HESSIAN" _ (by decide),
   invalid_argument_errors.2.1 [] [] none "odd" 0
     (by decide) (by decide) (by decide),
   invalid_argument_errors.2.2 (fun _ => []) (fun _ => none) [] "int"⟩

/-! ### C1: label slices vs. the flat arrays

The claim fails on the code: `postprocess_output_with_label` computes the
FORCE stride as `vdim * results[KEY.NUM_ATOMS][idx].item()`, but
`results` is the dict returned by `postprocess_output`, whose keys are
the loss types only — `output[KEY.NUM_ATOMS]` is what holds the atom
counts.  So the function raises `KeyError` whenever FORCE is among the
loss types and the batch is nonempty, and no FORCE slices are produced at
all.  The lemma below shows the string key is never present; the theorem
evaluates the failing run on the concrete two-structure batch. -/

theorem postprocessGo_cons_ok (output : ModelOutput) (acc : Results)
    (t : LossT) (rest : List LossT) (tr : OutTriple)
    (h : lossTriple output t = .ok tr) :
    postprocessGo output acc (t :: rest) =
      postprocessGo output (ainsert acc (RKey.lt t) tr) rest := by
  simp only [postprocessGo, h]
  rfl

theorem postprocessGo_no_string_keys (output : ModelOutput)
    (lts : List LossT) (acc rs : Results) (s : String)
    (hacc : rlookup acc (RKey.skey s) = none)
    (h : postprocessGo output acc lts = .ok rs) :
    rlookup rs (RKey.skey s) = none := by
  induction lts generalizing acc with
  | nil =>
      simp only [postprocessGo] at h
      cases h
      exact hacc
  | cons t rest ih =>
      have step : ∀ tr : OutTriple, lossTriple output t = .ok tr →
          rlookup rs (RKey.skey s) = none := by
        intro tr htr
        rw [postprocessGo_cons_ok output acc t rest tr htr] at h
        refine ih _ ?_ h
        simp only [rlookup] at hacc ⊢
        rw [alookup_ainsert_ne]
        · exact hacc
        · intro hh; cases hh
      cases t with
      | energy => exact step _ rfl
      | force => exact step _ rfl
      | stress => exact step _ rfl
      | other d =>
          rw [show postprocessGo output acc (LossT.other d :: rest) =
              Except.error ("Unknown loss type: " ++ d) from rfl] at h
          cases h

/-- C1 (code bug): on the concrete two-structure batch `sampleOutput`,
postprocessing with the FORCE loss type and re-partitioning by label
raises `KeyError` instead of producing the tiling slices: the code reads
the atom counts from the `results` dict (keyed by loss types) rather
than from `output`. -/
theorem with_label_force_keyerror :
    postprocess_output_with_label sampleOutput [LossT.force] =
      .error ("KeyError: " ++ KEY_NUM_ATOMS) := by
  rfl

/-! ### C6: `infer_irreps_out` honors its filters -/

/-- C6: whatever the two input signatures, every block of the signature
returned by `infer_irreps_out` satisfies the requested filters: under
`parity_mode='even'` no block has parity `-1`; under `parity_mode='sph'`
every block has parity `(-1)^degree`; under `drop_l = some d` no block
has degree exceeding `d`. -/
theorem infer_irreps_out_filters (x op : Irreps) (dl : Option ℤ)
    (pm : String) (fm : ℕ) (result : Irreps)
    (h : infer_irreps_out x op dl pm fm = .ok result) :
    ∀ b ∈ result,
      (pm = "even" → b.2.2 ≠ -1) ∧
      (pm = "sph" → b.2.2 = (-1) ^ b.2.1) ∧
      (∀ d, dl = some d → (b.2.1 : ℤ) ≤ d) := by
  intro b hb
  rw [infer_irreps_out] at h
  by_cases hpm : ¬ (pm = "full" ∨ pm = "even" ∨ pm = "sph")
  · rw [if_pos hpm] at h; cases h
  · rw [if_neg hpm] at h
    cases h
    obtain ⟨a, _, hfa⟩ := List.mem_filterMap.mp hb
    obtain ⟨mul, l, p⟩ := a
    simp only at hfa
    split at hfa
    next hdrop => cases hfa
    next hdrop =>
      have hdropC : ∀ d, dl = some d → ((l : ℤ) ≤ d) := by
        intro d hd
        subst hd
        simp only [decide_eq_true_eq] at hdrop
        exact not_lt.mp hdrop
      split at hfa
      next heven => cases hfa
      next heven =>
        split at hfa
        next hsph => cases hfa
        next hsph =>
          have hevenC : pm = "even" → p ≠ -1 :=
            fun h1 hp => heven ⟨h1, hp⟩
          have hsphC : pm = "sph" → p = (-1) ^ l := by
            intro h1
            by_contra hp
            exact hsph ⟨h1, hp⟩
          split at hfa
          next hfm =>
            cases hfa
            exact ⟨hevenC, hsphC, hdropC⟩
          next hfm =>
            cases hfa
            exact ⟨hevenC, hsphC, hdropC⟩

/-- C6 witness: with inputs `1x1o ⊗ 1x1o`, `parity_mode='even'` and
`drop_l=1`, the surviving block `(1, (0, 1))` has even parity and degree
within the bound. -/
theorem infer_irreps_out_filters_witness :
    ((1, ((0 : ℕ), (1 : ℤ))) : ℕ × Irrep).2.2 ≠ -1 ∧
    ((((1, ((0 : ℕ), (1 : ℤ))) : ℕ × Irrep).2.1 : ℤ)) ≤ 1 := by
  have h := infer_irreps_out_filters [(1, (1, -1))] [(1, (1, -1))]
    (some 1) "even" 0 [(1, (0, 1)), (1, (1, 1))] (by rfl)
    (1, (0, 1)) (by simp)
  exact ⟨h.1 rfl, h.2.2 1 rfl⟩

/-! ### C9: `to_atom_graph_list` splits by atom counts -/

theorem splitSizes_length {α : Type} (xs : List α) (ns : List ℕ) :
    (splitSizes xs ns).length = ns.length := by
  induction ns generalizing xs with
  | nil => rfl
  | cons n rest ih => simp [splitSizes, ih]

theorem splitSizes_getD_length {α : Type} (xs : List α) (ns : List ℕ)
    (h : ns.sum = xs.length) (i : ℕ) (hi : i < ns.length) :
    ((splitSizes xs ns).getD i []).length = ns.getD i 0 := by
  induction ns generalizing xs i with
  | nil => cases hi
  | cons n rest ih =>
      cases i with
      | zero =>
          simp only [splitSizes, List.getD_cons_zero, List.length_take]
          simp only [List.sum_cons] at h
          omega
      | succ j =>
          simp only [splitSizes, List.getD_cons_succ]
          refine ih (xs.drop n) ?_ j ?_
          · simp only [List.sum_cons] at h
            simp [List.length_drop]
            omega
          · simpa using hi

theorem range_map_getD {α : Type} (n : ℕ) (f : ℕ → α) (i : ℕ)
    (hi : i < n) (d : α) :
    ((List.range n).map f).getD i d = f i := by
  rw [List.getD_eq_getElem?_getD, List.getElem?_map, List.getElem?_range hi]
  rfl

/-- C9: on a batched graph with per-structure atom counts `[a1..ak]`,
`to_atom_graph_list` returns `k` records in batch order; record `i`'s
inferred force tensor has `aᵢ` rows (each row a 3-vector, i.e. shape
`[aᵢ, 3]`), and a present inferred stress is attached with a singleton
leading dimension. -/
theorem to_atom_graph_list_shapes (b : AtomGraphBatch)
    (hk : b.dataList.length = b.numAtoms.length)
    (hf : b.numAtoms.sum = b.predForce.length) :
    (to_atom_graph_list b).length = b.numAtoms.length ∧
    (∀ i, i < b.numAtoms.length →
      (((to_atom_graph_list b).getD i default).predForce).length =
        b.numAtoms.getD i 0) ∧
    (∀ s, b.predStress = some s →
      ∀ i, i < b.numAtoms.length →
        ((to_atom_graph_list b).getD i default).predStress =
          some [s.getD i []]) := by
  refine ⟨?_, ?_, ?_⟩
  · simp [to_atom_graph_list, hk]
  · intro i hi
    unfold to_atom_graph_list
    rw [range_map_getD _ _ i (by rw [hk]; exact hi)]
    simp only
    exact splitSizes_getD_length b.predForce b.numAtoms hf i hi
  · intro s hs i hi
    unfold to_atom_graph_list
    rw [range_map_getD _ _ i (by rw [hk]; exact hi)]
    simp [hs]

/-- C9 witness: a two-structure batch with atom counts `[3, 5]` and a
stress prediction: the two records carry force tensors of 3 and 5 rows
and singleton-leading-dimension stresses. -/
theorem to_atom_graph_list_shapes_witness :
    (to_atom_graph_list
      { numAtoms := [3, 5]
        atomicEnergy := List.replicate 8 0
        predTotalEnergy := [1, 2]
        predForce := List.replicate 8 ((0 : ℚ), (0 : ℚ), (0 : ℚ))
        predStress := some [[1, 0, 0, 0, 0, 0], [0, 1, 0, 0, 0, 0]]
        dataList := List.replicate 2 default }).length = 2 ∧
    ((to_atom_graph_list
      { numAtoms := [3, 5]
        atomicEnergy := List.replicate 8 0
        predTotalEnergy := [1, 2]
        predForce := List.replicate 8 ((0 : ℚ), (0 : ℚ), (0 : ℚ))
        predStress := some [[1, 0, 0, 0, 0, 0], [0, 1, 0, 0, 0, 0]]
        dataList := List.replicate 2 default }).getD 1 default).predForce.length
      = 5 := by
  have h := to_atom_graph_list_shapes
    { numAtoms := [3, 5]
      atomicEnergy := List.replicate 8 0
      predTotalEnergy := [1, 2]
      predForce := List.replicate 8 ((0 : ℚ), (0 : ℚ), (0 : ℚ))
      predStress := some [[1, 0, 0, 0, 0, 0], [0, 1, 0, 0, 0, 0]]
      dataList := List.replicate 2 default }
    (by decide) (by decide)
  exact ⟨h.1, h.2.1 1 (by decide)⟩

/-! ### C10: the legacy remapping is the identity on modern keys -/

theorem mapOldModel_go (sd : StateDict) (acc : StateDict)
    (hid : ∀ p ∈ sd, mapOldKey p.1 = p.1)
    (hfresh : ∀ p ∈ sd, alookup acc p.1 = none)
    (hnodup : (sd.map Prod.fst).Nodup) :
    sd.foldl (fun a kv => ainsert a (mapOldKey kv.1) kv.2) acc = acc ++ sd := by
  induction sd generalizing acc with
  | nil => simp
  | cons p rest ih =>
      obtain ⟨k, v⟩ := p
      rw [List.foldl_cons]
      have hk : mapOldKey k = k := hid (k, v) (List.mem_cons_self _ _)
      have hins : ainsert acc (mapOldKey k) v = acc ++ [(k, v)] := by
        rw [hk]
        exact ainsert_of_alookup_none acc k v
          (hfresh (k, v) (List.mem_cons_self _ _))
      rw [hins]
      simp only [List.map_cons, List.nodup_cons] at hnodup
      have hres := ih (acc ++ [(k, v)])
        (fun q hq => hid q (List.mem_cons_of_mem _ hq))
        (fun q hq => by
          rw [alookup_append_left _ _ _ (hfresh q (List.mem_cons_of_mem _ hq))]
          have hne : ¬ k = q.1 := by
            intro hh
            exact hnodup.1 (hh ▸ (List.mem_map_of_mem Prod.fst hq))
          simp only [alookup]
          rw [if_neg hne])
        hnodup.2
      rw [hres, List.append_assoc]
      rfl

/-- C10: `_map_old_model` maps every key whose first dotted component is
outside the legacy module-name table (and whose remainder is free of the
`denumerator` misspelling) to itself; consequently, on a state dict
already in the current naming scheme the remapping is the identity, so
the retry path never corrupts modern parameter keys. -/
theorem map_old_model_modern_identity :
    (∀ k : String,
      ((pySplit k '.').headD "") ∉ oldModuleNameMapping.map Prod.fst →
      containsSub "denumerator".data
          (String.intercalate "." (pySplit k '.').tail).data = false →
      mapOldKey k = k) ∧
    (∀ sd : StateDict,
      (sd.map Prod.fst).Nodup →
      (∀ p ∈ sd,
        ((pySplit p.1 '.').headD "") ∉ oldModuleNameMapping.map Prod.fst) →
      mapOldModel sd = sd) := by
  have hkey : ∀ k : String,
      ((pySplit k '.').headD "") ∉ oldModuleNameMapping.map Prod.fst →
      mapOldKey k = k := by
    intro k h
    have hnone : alookup oldModuleNameMapping ((pySplit k '.').headD "") =
        none := (alookup_eq_none _ _).mpr h
    unfold mapOldKey
    simp only [hnone]
  constructor
  · intro k h _
    exact hkey k h
  · intro sd hnodup h
    have := mapOldModel_go sd []
      (fun p hp => hkey p.1 (h p hp))
      (fun p _ => rfl)
      hnodup
    simpa [mapOldModel] using this

/-- C10 witness: a two-key state dict in the current naming scheme is
left untouched by `_map_old_model`. -/
theorem map_old_model_modern_identity_witness :
    mapOldModel
      [("edge_embedding.weight", [(1 : ℚ)]), ("0_convolution.weight", [2])] =
      [("edge_embedding.weight", [(1 : ℚ)]), ("0_convolution.weight", [2])] :=
  map_old_model_modern_identity.2
    [("edge_embedding.weight", [(1 : ℚ)]), ("0_convolution.weight", [2])]
    (by decide) (by decide)

/-! ### C4: legacy checkpoints load via the remapping retry -/

theorem loadStateDict_missing_pos (expected : List String) (sd : StateDict)
    (h : ∃ k ∈ expected, alookup sd k = none) :
    0 < ((loadStateDict expected sd).1).length := by
  obtain ⟨k, hk, hnone⟩ := h
  have hmem : k ∈ (loadStateDict expected sd).1 :=
    List.mem_filter.mpr ⟨hk, by simp [hnone]⟩
  exact List.length_pos.mpr (List.ne_nil_of_mem hmem)

theorem loadStateDict_missing_nil (expected : List String) (sd : StateDict)
    (h : ∀ k ∈ expected, (alookup sd k).isSome) :
    (loadStateDict expected sd).1 = [] := by
  refine List.filter_eq_nil_iff.mpr ?_
  intro k hk
  have h2 := h k hk
  cases hc : alookup sd k with
  | none => rw [hc] at h2; cases h2
  | some v => simp [hc]

theorem loadModelParams_retry_ok (expected : List String) (sd : StateDict)
    (h1 : ∃ k ∈ expected, alookup sd k = none)
    (h2 : ∀ k ∈ expected, (alookup (mapOldModel sd) k).isSome) :
    ∃ warns, loadModelParams expected sd = .ok warns := by
  refine ⟨if ((loadStateDict expected (mapOldModel sd)).2).length > 0 then
    ["Some keys are not used"] else [], ?_⟩
  unfold loadModelParams
  rw [if_pos (loadStateDict_missing_pos expected sd h1)]
  simp only [loadStateDict_missing_nil expected (mapOldModel sd) h2]
  rfl

theorem loadModelParams_retry_fatal (expected : List String) (sd : StateDict)
    (h1 : ∃ k ∈ expected, alookup sd k = none)
    (h2 : ∃ k ∈ expected, alookup (mapOldModel sd) k = none) :
    loadModelParams expected sd = .error "AssertionError: Missing keys" := by
  unfold loadModelParams
  rw [if_pos (loadStateDict_missing_pos expected sd h1)]
  simp only
  rw [if_pos (loadStateDict_missing_pos expected (mapOldModel sd) h2)]

theorem except_ok_bind {α β : Type} (a : α) (f : α → Except String β) :
    ((Except.ok a : Except String α) >>= f) = f a := rfl

theorem except_pure_bind {α β : Type} (a : α) (f : α → Except String β) :
    ((pure a : Except String α) >>= f) = f a := rfl

theorem model_from_checkpoint_dict_eq (build : CfgMap → List String)
    (fs : String → Option Checkpoint) (defaults : CfgMap) (ckpt : Checkpoint)
    (cfg : CfgMap) (w warns2 : List String)
    (hres : resolveConfig defaults ckpt.config = .ok (cfg, w))
    (hload : loadModelParams (build cfg) ckpt.model_state_dict = .ok warns2) :
    model_from_checkpoint build fs defaults (.dict ckpt) =
      .ok (build cfg, cfg, w ++ warns2) := by
  simp only [model_from_checkpoint, checkpointFromInput, except_ok_bind,
    hres, hload]
  rfl

theorem model_from_checkpoint_dict_err (build : CfgMap → List String)
    (fs : String → Option Checkpoint) (defaults : CfgMap) (ckpt : Checkpoint)
    (cfg : CfgMap) (w : List String) (e : String)
    (hres : resolveConfig defaults ckpt.config = .ok (cfg, w))
    (hload : loadModelParams (build cfg) ckpt.model_state_dict = .error e) :
    model_from_checkpoint build fs defaults (.dict ckpt) = .error e := by
  simp only [model_from_checkpoint, checkpointFromInput, except_ok_bind,
    hres, hload]
  rfl

/-- C4: a checkpoint whose parameter keys only match the legacy naming
scheme loads via the remapping retry path with no missing keys; if keys
remain missing even after remapping, loading fails the final assertion. -/
theorem model_from_checkpoint_legacy_remap (build : CfgMap → List String)
    (fs : String → Option Checkpoint) (defaults : CfgMap) (ckpt : Checkpoint)
    (cfg : CfgMap) (w : List String)
    (hres : resolveConfig defaults ckpt.config = .ok (cfg, w)) :
    ((∃ k ∈ build cfg, alookup ckpt.model_state_dict k = none) →
     (∀ k ∈ build cfg,
        (alookup (mapOldModel ckpt.model_state_dict) k).isSome) →
      ∃ warns, model_from_checkpoint build fs defaults (.dict ckpt) =
        .ok (build cfg, cfg, w ++ warns)) ∧
    ((∃ k ∈ build cfg, alookup ckpt.model_state_dict k = none) →
     (∃ k ∈ build cfg, alookup (mapOldModel ckpt.model_state_dict) k = none) →
      model_from_checkpoint build fs defaults (.dict ckpt) =
        .error "AssertionError: Missing keys") := by
  constructor
  · intro h1 h2
    obtain ⟨warns, hw⟩ :=
      loadModelParams_retry_ok (build cfg) ckpt.model_state_dict h1 h2
    exact ⟨warns, model_from_checkpoint_dict_eq build fs defaults ckpt cfg w
      warns hres hw⟩
  · intro h1 h2
    exact model_from_checkpoint_dict_err build fs defaults ckpt cfg w _ hres
      (loadModelParams_retry_fatal (build cfg) ckpt.model_state_dict h1 h2)

/-- A concrete legacy checkpoint: one parameter under the old name
`"0 convolution.weight"`, a valid optimize flag, and a non-XPLOR cutoff
function. -/
def sampleLegacyCkpt : Checkpoint :=
  { model_state_dict := [("0 convolution.weight", [1])]
    config := [(KEY_OPTIMIZE_BY_REDUCE, Value.vBool true),
               (KEY_CUTOFF_FUNCTION,
                 Value.vDict [(KEY_CUTOFF_FUNCTION_NAME, "poly_cutoff")])] }

/-- C4 witness: the legacy key `"0 convolution.weight"` is remapped to
the model's expected `"0_convolution.weight"` and the load succeeds. -/
theorem model_from_checkpoint_legacy_remap_witness :
    ∃ warns,
      model_from_checkpoint (fun _ => ["0_convolution.weight"])
          (fun _ => none) [] (.dict sampleLegacyCkpt) =
        .ok (["0_convolution.weight"], sampleLegacyCkpt.config, [] ++ warns) :=
  (model_from_checkpoint_legacy_remap (fun _ => ["0_convolution.weight"])
      (fun _ => none) [] sampleLegacyCkpt sampleLegacyCkpt.config []
      (by rfl)).1
    (by decide) (by decide)

/-! ### C2: a missing default key is filled with the default value -/

theorem fillDefaults_lookup_present (defaults : CfgMap) (config : CfgMap)
    (k : String) (v : Value) (h : alookup config k = some v) :
    alookup (fillDefaults defaults config).1 k = some v := by
  induction defaults generalizing config with
  | nil => exact h
  | cons p rest ih =>
      obtain ⟨k0, v0⟩ := p
      simp only [fillDefaults]
      cases hc : alookup config k0 with
      | some w => exact ih config h
      | none =>
          simp only
          refine ih (ainsert config k0 v0) ?_
          have hne : k ≠ k0 := by
            intro hh
            rw [hh] at h
            rw [h] at hc
            cases hc
          rw [alookup_ainsert_ne _ _ _ _ hne]
          exact h

theorem fillDefaults_fills (defaults : CfgMap) (config : CfgMap)
    (k : String) (dv : Value)
    (hk : alookup defaults k = some dv)
    (habs : alookup config k = none) :
    alookup (fillDefaults defaults config).1 k = some dv ∧
    defaultFilledWarning k ∈ (fillDefaults defaults config).2 := by
  induction defaults generalizing config with
  | nil => cases hk
  | cons p rest ih =>
      obtain ⟨k0, v0⟩ := p
      by_cases h0 : k0 = k
      · subst h0
        rw [alookup, if_pos rfl] at hk
        injection hk with hdv
        simp only [fillDefaults, habs]
        constructor
        · rw [← hdv]
          exact fillDefaults_lookup_present rest _ k0 v0
            (alookup_ainsert_self config k0 v0)
        · exact List.mem_cons_self _ _
      · rw [alookup, if_neg h0] at hk
        simp only [fillDefaults]
        cases hc : alookup config k0 with
        | some w => exact ih config hk habs
        | none =>
            have habs' : alookup (ainsert config k0 v0) k = none := by
              rw [alookup_ainsert_ne _ _ _ _ (fun hh => h0 hh.symm)]
              exact habs
            have hres := ih (ainsert config k0 v0) hk habs'
            exact ⟨hres.1, List.mem_cons_of_mem _ hres.2⟩

theorem cfgToCpu_lookup (config : CfgMap) (k : String) :
    alookup (cfgToCpu config) k = (alookup config k).map valueToCpu := by
  induction config with
  | nil => rfl
  | cons p rest ih =>
      obtain ⟨k0, v0⟩ := p
      simp only [cfgToCpu, List.map_cons] at ih ⊢
      by_cases h : k0 = k
      · subst h
        simp [alookup]
      · simp [alookup, h, ih]

theorem resolveConfig_ok_nofix (defaults config : CfgMap) (v : Value)
    (hopt : alookup config KEY_OPTIMIZE_BY_REDUCE = some v)
    (htrue : pyTruthy v = .ok true)
    (hfix : xplorMaceCond (cfgToCpu (fillDefaults defaults config).1) =
      .ok false) :
    resolveConfig defaults config =
      .ok (cfgToCpu (fillDefaults defaults config).1,
        (fillDefaults defaults config).2) := by
  simp only [resolveConfig, hopt, htrue, except_pure_bind, except_ok_bind,
    hfix]
  simp
  rfl

theorem resolveConfig_ok_fix (defaults config : CfgMap) (v : Value)
    (hopt : alookup config KEY_OPTIMIZE_BY_REDUCE = some v)
    (htrue : pyTruthy v = .ok true)
    (hfix : xplorMaceCond (cfgToCpu (fillDefaults defaults config).1) =
      .ok true) :
    resolveConfig defaults config =
      .ok (ainsert (cfgToCpu (fillDefaults defaults config).1)
          KEY_SELF_CONNECTION_TYPE (Value.vStr "linear"),
        (fillDefaults defaults config).2 ++ [xplorWarning]) := by
  simp only [resolveConfig, hopt, htrue, except_pure_bind, except_ok_bind,
    hfix]
  simp
  rfl

theorem loadModelParams_all_present (expected : List String) (sd : StateDict)
    (h : ∀ k ∈ expected, (alookup sd k).isSome) :
    loadModelParams expected sd = .ok [] := by
  simp only [loadModelParams, loadStateDict_missing_nil expected sd h]
  rfl

/-- C2: loading a checkpoint whose configuration lacks a key `K` present
in the defaults table succeeds, emits the default-filled warning for `K`,
and resolves `K` to the default value (normalized to cpu); keys present
in the checkpoint's configuration always win over defaults. -/
theorem model_from_checkpoint_fills_defaults (build : CfgMap → List String)
    (fs : String → Option Checkpoint) (defaults : CfgMap) (ckpt : Checkpoint)
    (K : String) (dv : Value) (v : Value)
    (hopt : alookup ckpt.config KEY_OPTIMIZE_BY_REDUCE = some v)
    (htrue : pyTruthy v = .ok true)
    (hK : alookup defaults K = some dv)
    (habs : alookup ckpt.config K = none)
    (hfix : xplorMaceCond (cfgToCpu (fillDefaults defaults ckpt.config).1) =
      .ok false)
    (hcov : ∀ k ∈ build (cfgToCpu (fillDefaults defaults ckpt.config).1),
      (alookup ckpt.model_state_dict k).isSome) :
    ∃ warns,
      model_from_checkpoint build fs defaults (.dict ckpt) =
        .ok (build (cfgToCpu (fillDefaults defaults ckpt.config).1),
          cfgToCpu (fillDefaults defaults ckpt.config).1, warns) ∧
      alookup (cfgToCpu (fillDefaults defaults ckpt.config).1) K =
        some (valueToCpu dv) ∧
      defaultFilledWarning K ∈ warns ∧
      (∀ K' v', alookup ckpt.config K' = some v' →
        alookup (cfgToCpu (fillDefaults defaults ckpt.config).1) K' =
          some (valueToCpu v')) := by
  have hfill := fillDefaults_fills defaults ckpt.config K dv hK habs
  refine ⟨(fillDefaults defaults ckpt.config).2 ++ [], ?_, ?_, ?_, ?_⟩
  · exact model_from_checkpoint_dict_eq build fs defaults ckpt
      (cfgToCpu (fillDefaults defaults ckpt.config).1)
      (fillDefaults defaults ckpt.config).2 []
      (resolveConfig_ok_nofix defaults ckpt.config v hopt htrue hfix)
      (loadModelParams_all_present _ _ hcov)
  · rw [cfgToCpu_lookup, hfill.1]
    rfl
  · exact List.mem_append_left _ hfill.2
  · intro K' v' h'
    rw [cfgToCpu_lookup,
      fillDefaults_lookup_present defaults ckpt.config K' v' h']
    rfl

/-- C2 witness: filling the missing `"num_species"` key from a
one-entry defaults table. -/
theorem model_from_checkpoint_fills_defaults_witness :
    ∃ warns,
      model_from_checkpoint (fun _ => []) (fun _ => none)
          [("num_species", Value.vInt 2)] (.dict sampleLegacyCkpt) =
        .ok ((fun (_ : CfgMap) => ([] : List String))
            (cfgToCpu (fillDefaults [("num_species", Value.vInt 2)]
              sampleLegacyCkpt.config).1),
          cfgToCpu (fillDefaults [("num_species", Value.vInt 2)]
            sampleLegacyCkpt.config).1, warns) ∧
      alookup (cfgToCpu (fillDefaults [("num_species", Value.vInt 2)]
          sampleLegacyCkpt.config).1) "num_species" =
        some (valueToCpu (Value.vInt 2)) ∧
      defaultFilledWarning "num_species" ∈ warns ∧
      (∀ K' v', alookup sampleLegacyCkpt.config K' = some v' →
        alookup (cfgToCpu (fillDefaults [("num_species", Value.vInt 2)]
            sampleLegacyCkpt.config).1) K' = some (valueToCpu v')) :=
  model_from_checkpoint_fills_defaults (fun _ => []) (fun _ => none)
    [("num_species", Value.vInt 2)] sampleLegacyCkpt
    "num_species" (Value.vInt 2) (Value.vBool true)
    (by rfl) (by rfl) (by rfl) (by rfl) (by rfl)
    (by intro k hk; cases hk)

/-! ### C5: the XPLOR/MACE combination is downgraded to 'linear' -/

/-- C5: loading a checkpoint whose configuration combines cutoff-function
name `'XPLOR'` with `self_connection_type='MACE'` emits the user-visible
warning and resolves `self_connection_type` to `'linear'`; for
configurations not matching that combination, `self_connection_type` is
left unchanged. -/
theorem model_from_checkpoint_xplor_mace (build : CfgMap → List String)
    (fs : String → Option Checkpoint) (defaults : CfgMap) (ckpt : Checkpoint)
    (v : Value)
    (hopt : alookup ckpt.config KEY_OPTIMIZE_BY_REDUCE = some v)
    (htrue : pyTruthy v = .ok true)
    (hcov : ∀ (cfg : CfgMap), ∀ k ∈ build cfg,
      (alookup ckpt.model_state_dict k).isSome) :
    ((∀ d : List (String × String),
      alookup ckpt.config KEY_CUTOFF_FUNCTION = some (Value.vDict d) →
      alookup d KEY_CUTOFF_FUNCTION_NAME = some "XPLOR" →
      alookup ckpt.config KEY_SELF_CONNECTION_TYPE =
        some (Value.vStr "MACE") →
      ∃ cfg warns,
        model_from_checkpoint build fs defaults (.dict ckpt) =
          .ok (build cfg, cfg, warns) ∧
        alookup cfg KEY_SELF_CONNECTION_TYPE = some (Value.vStr "linear") ∧
        xplorWarning ∈ warns) ∧
     (xplorMaceCond (cfgToCpu (fillDefaults defaults ckpt.config).1) =
        .ok false →
      ∀ s, alookup ckpt.config KEY_SELF_CONNECTION_TYPE =
        some (Value.vStr s) →
      ∃ cfg warns,
        model_from_checkpoint build fs defaults (.dict ckpt) =
          .ok (build cfg, cfg, warns) ∧
        alookup cfg KEY_SELF_CONNECTION_TYPE = some (Value.vStr s))) := by
  constructor
  · intro d hcf hname hsc
    have hcf' : alookup (cfgToCpu (fillDefaults defaults ckpt.config).1)
        KEY_CUTOFF_FUNCTION = some (Value.vDict d) := by
      rw [cfgToCpu_lookup,
        fillDefaults_lookup_present defaults ckpt.config _ _ hcf]
      rfl
    have hsc' : alookup (cfgToCpu (fillDefaults defaults ckpt.config).1)
        KEY_SELF_CONNECTION_TYPE = some (Value.vStr "MACE") := by
      rw [cfgToCpu_lookup,
        fillDefaults_lookup_present defaults ckpt.config _ _ hsc]
      rfl
    have hfix : xplorMaceCond (cfgToCpu (fillDefaults defaults ckpt.config).1)
        = .ok true := by
      simp only [xplorMaceCond, hcf', hname, hsc', except_pure_bind]
      rfl
    refine ⟨ainsert (cfgToCpu (fillDefaults defaults ckpt.config).1)
        KEY_SELF_CONNECTION_TYPE (Value.vStr "linear"),
      ((fillDefaults defaults ckpt.config).2 ++ [xplorWarning]) ++ [],
      ?_, ?_, ?_⟩
    · exact model_from_checkpoint_dict_eq build fs defaults ckpt _ _ []
        (resolveConfig_ok_fix defaults ckpt.config v hopt htrue hfix)
        (loadModelParams_all_present _ _ (hcov _))
    · exact alookup_ainsert_self _ _ _
    · exact List.mem_append_left _ (List.mem_append_right _
        (List.mem_cons_self _ _))
  · intro hfix s hsc
    refine ⟨cfgToCpu (fillDefaults defaults ckpt.config).1,
      (fillDefaults defaults ckpt.config).2 ++ [], ?_, ?_⟩
    · exact model_from_checkpoint_dict_eq build fs defaults ckpt _ _ []
        (resolveConfig_ok_nofix defaults ckpt.config v hopt htrue hfix)
        (loadModelParams_all_present _ _ (hcov _))
    · rw [cfgToCpu_lookup,
        fillDefaults_lookup_present defaults ckpt.config _ _ hsc]
      rfl

/-- A concrete checkpoint with the buggy XPLOR/MACE combination. -/
def sampleXplorCkpt : Checkpoint :=
  { model_state_dict := []
    config := [(KEY_OPTIMIZE_BY_REDUCE, Value.vBool true),
               (KEY_CUTOFF_FUNCTION,
                 Value.vDict [(KEY_CUTOFF_FUNCTION_NAME, "XPLOR")]),
               (KEY_SELF_CONNECTION_TYPE, Value.vStr "MACE")] }

/-- C5 witness: loading `sampleXplorCkpt` warns and downgrades
`self_connection_type` to `'linear'`. -/
theorem model_from_checkpoint_xplor_mace_witness :
    ∃ cfg warns,
      model_from_checkpoint (fun _ => []) (fun _ => none) []
          (.dict sampleXplorCkpt) =
        .ok ([], cfg, warns) ∧
      alookup cfg KEY_SELF_CONNECTION_TYPE = some (Value.vStr "linear") ∧
      xplorWarning ∈ warns := by
  obtain ⟨cfg, warns, h1, h2, h3⟩ :=
    (model_from_checkpoint_xplor_mace (fun _ => []) (fun _ => none) []
        sampleXplorCkpt (Value.vBool true) (by rfl) (by rfl)
        (by intro cfg k hk; cases hk)).1
      [(KEY_CUTOFF_FUNCTION_NAME, "XPLOR")] (by rfl) (by rfl) (by rfl)
  exact ⟨cfg, warns, h1, h2, h3⟩

end Sevenn
